import Mathlib

set_option maxRecDepth 100000

/-
Verification of the retrieval & response orchestration pipeline of the
Medif Estructuras chatbot backend (src/backend/app, chiefly
routes/chat.py, utils/text.py, utils/vector.py and llm/embeddings.py).

Modelling conventions:
* A Python `str` is modelled as `List Char` (one entry per code point, as in
  CPython).  String literals are injected with `String.toList`.
* A Python `float` is modelled as an exact rational `ℚ`; the comparisons the
  code performs (`>=`, `max`, sort keys) are order-theoretic and are captured
  exactly by `ℚ`.
* External collaborators (vector store, history store, embedding and
  generation services) are parameters: a function models a collaborator whose
  response the code consumes, an `Except` value models a call that can raise.
-/

/-- Python `str.isspace` / regex `\s` (the Unicode whitespace code points
recognised by CPython).  Both `str.strip()` and the `\s` character class in
`re` match exactly this set. -/
def isPyWs (c : Char) : Bool :=
  c.toNat == 0x09 || c.toNat == 0x0a || c.toNat == 0x0b || c.toNat == 0x0c || c.toNat == 0x0d ||
  c.toNat == 0x1c || c.toNat == 0x1d || c.toNat == 0x1e || c.toNat == 0x1f || c.toNat == 0x20 ||
  c.toNat == 0x85 || c.toNat == 0xa0 || c.toNat == 0x1680 ||
  (0x2000 ≤ c.toNat && c.toNat ≤ 0x200a) ||
  c.toNat == 0x2028 || c.toNat == 0x2029 || c.toNat == 0x202f || c.toNat == 0x205f || c.toNat == 0x3000

/-- The character class of `CONTROL_CHAR_RE` in src/src/backend/app/utils/text.py:
`[\u0000-\u001f\u007f-\u009f]`. -/
def isCtrlRange (c : Char) : Bool :=
  c.toNat ≤ 0x1f || (0x7f ≤ c.toNat && c.toNat ≤ 0x9f)

/-- ASCII decimal digit, the digits Python `str.isdigit` recognises on the
inputs modelled here. -/
def isAsciiDigit (c : Char) : Bool :=
  0x30 ≤ c.toNat && c.toNat ≤ 0x39

/-- Python `str.lower()` per character.  Every character this development
lowercases is ASCII (accented capitals are decomposed and stripped before the
code calls `lower`), so ASCII lowering models it exactly. -/
def asciiLower (c : Char) : Char :=
  if 0x41 ≤ c.toNat && c.toNat ≤ 0x5a then Char.ofNat (c.toNat + 32) else c

/-- NFD decomposition followed by dropping combining marks (category Mn), the
first two steps of `_normalize_social_text` in chat.py, modelled per
character.  The Latin precomposed letters occurring in this development's
tables and inputs decompose into their base letter plus a combining mark
(`ñ` and `ü` included); every other modelled character is NFD-invariant and
is not itself a combining mark, so the step is the identity on it. -/
def stripMark (c : Char) : Char :=
  if c.toNat == 0xe1 then 'a'
  else if c.toNat == 0xe9 then 'e'
  else if c.toNat == 0xed then 'i'
  else if c.toNat == 0xf3 then 'o'
  else if c.toNat == 0xfa then 'u'
  else if c.toNat == 0xf1 then 'n'
  else if c.toNat == 0xfc then 'u'
  else if c.toNat == 0xc1 then 'A'
  else if c.toNat == 0xc9 then 'E'
  else if c.toNat == 0xcd then 'I'
  else if c.toNat == 0xd3 then 'O'
  else if c.toNat == 0xda then 'U'
  else if c.toNat == 0xd1 then 'N'
  else if c.toNat == 0xdc then 'U'
  else c

/-- The regex class `\w` (word character) on the code points reaching the
`[^\w\s]` substitution of `_normalize_social_text`: by that point diacritics
are stripped and the text lowercased, so the word characters are ASCII
alphanumerics and the underscore. -/
def isPyWordChar (c : Char) : Bool :=
  (0x61 ≤ c.toNat && c.toNat ≤ 0x7a) || (0x41 ≤ c.toNat && c.toNat ≤ 0x5a) ||
  (0x30 ≤ c.toNat && c.toNat ≤ 0x39) || c.toNat == 0x5f

/-- Remove trailing characters satisfying `p`. -/
def dropWhileEnd (p : Char → Bool) (l : List Char) : List Char :=
  (l.reverse.dropWhile p).reverse

/-- Python `str.strip()` with no arguments: remove leading and trailing
whitespace. -/
def pyStrip (l : List Char) : List Char :=
  dropWhileEnd isPyWs (l.dropWhile isPyWs)

/-- Worker for `collapseWs`; the flag records whether the previous character
belonged to a whitespace run already emitted as one space. -/
def collapseWsAux : Bool → List Char → List Char
  | _, [] => []
  | prevWs, c :: rest =>
    if isPyWs c then
      if prevWs then collapseWsAux true rest
      else ' ' :: collapseWsAux true rest
    else c :: collapseWsAux false rest

/-- `re.sub(r"\s+", " ", ·)`: replace every maximal whitespace run with a
single space. -/
def collapseWs (l : List Char) : List Char :=
  collapseWsAux false l

/-- Worker for `collapseRuns`, remembering the previously emitted character. -/
def collapseRunsAux : Option Char → List Char → List Char
  | _, [] => []
  | prev, c :: rest =>
    if prev == some c && c ≠ '\n' then collapseRunsAux (some c) rest
    else c :: collapseRunsAux (some c) rest

/-- `re.sub(r"(.)\1+", r"\1", ·)`: collapse every maximal run of a repeated
character to one occurrence.  `.` does not match a newline, so runs of
newlines are kept. -/
def collapseRuns (l : List Char) : List Char :=
  collapseRunsAux none l

/-- Does `needle` occur at the head of `hay`? -/
def leadsList : List Char → List Char → Bool
  | [], _ => true
  | _ :: _, [] => false
  | a :: as, b :: bs => a == b && leadsList as bs

/-- Python's substring test `needle in hay` (true for the empty needle, as in
Python). -/
def containsSub (needle : List Char) : List Char → Bool
  | [] => leadsList needle []
  | c :: rest => leadsList needle (c :: rest) || containsSub needle rest

/-- Worker for `splitWs`, accumulating the current token reversed. -/
def splitWsAux : List Char → List Char → List (List Char)
  | acc, [] => if acc.isEmpty then [] else [acc.reverse]
  | acc, c :: rest =>
    if isPyWs c then
      if acc.isEmpty then splitWsAux [] rest else acc.reverse :: splitWsAux [] rest
    else splitWsAux (c :: acc) rest

/-- Python `str.split()` with no arguments: split on whitespace runs and drop
empty tokens. -/
def splitWs (l : List Char) : List (List Char) :=
  splitWsAux [] l

/-- Worker for `basename`. -/
def basenameAux : List Char → List Char → List Char
  | acc, [] => acc.reverse
  | acc, c :: rest => if c == '/' then basenameAux [] rest else basenameAux (c :: acc) rest

/-- `os.path.basename` on a POSIX path: everything after the final `/`. -/
def basename (l : List Char) : List Char :=
  basenameAux [] l

/-- Python `sep.join(items)`. -/
def joinSep (sep : List Char) : List (List Char) → List Char
  | [] => []
  | [x] => x
  | x :: y :: rest => x ++ sep ++ joinSep sep (y :: rest)

/-- `normalize_text` from src/src/backend/app/utils/text.py: NFC-normalize,
replace control characters with spaces, collapse whitespace runs, strip.
NFC normalization is the identity on every character this development
manipulates (ASCII, the Spanish precomposed letters and the punctuation of
the tables are all NFC-normal), so it contributes nothing here.  The
source's early return for a falsy value coincides with the general path on
the empty string. -/
def normalize_text (l : List Char) : List Char :=
  pyStrip (collapseWs (l.map (fun c => if isCtrlRange c then ' ' else c)))

/-- `normalize_text(x).lower()`, the normalization the retrieval code applies
before comparing chunk texts for deduplication (chat.py lines 428, 448, 491,
501, 514). -/
def normTL (l : List Char) : List Char :=
  (normalize_text l).map asciiLower

/-- `_normalize_social_text` from chat.py — the normalizer the spec's §4.1
describes: NFD + drop combining marks, lowercase, replace characters that are
neither word characters nor whitespace with spaces, collapse repeated
characters, collapse whitespace, strip. -/
def normalize_social_text (l : List Char) : List Char :=
  pyStrip (collapseWs (collapseRuns
    (((l.map stripMark).map asciiLower).map
      (fun c => if isPyWordChar c || isPyWs c then c else ' '))))

/-! ### Static configuration data of chat.py -/

/-- `MAX_HISTORY_LINES` (chat.py line 38). -/
def MAX_HISTORY_LINES : ℕ := 4

/-- `MAX_CONTEXT_CHARS` (chat.py line 39). -/
def MAX_CONTEXT_CHARS : ℕ := 2200

/-- `MAX_CONTEXT_CHUNKS` (chat.py line 40). -/
def MAX_CONTEXT_CHUNKS : ℕ := 8

/-- `CONTEXT_CHUNK_SEND_LIMIT` (chat.py line 41). -/
def CONTEXT_CHUNK_SEND_LIMIT : ℕ := 5

/-- `settings.rag_min_similarity`, default `0.6` (config.py line 33), bound to
`MIN_CONTEXT_SIMILARITY` in chat.py line 64. -/
def MIN_CONTEXT_SIMILARITY : ℚ := ⟨3, 5, by decide, by decide⟩

/-- `CONTACT_PROMPT` (chat.py lines 66-69). -/
def CONTACT_PROMPT : List Char :=
  "También podés hacer clic en “Enviar mis datos” o escribir tus datos en el chat para que coordinemos tu consulta, link de pago o llamada.".toList

/-- `CONTACT_ACK` (chat.py lines 70-72). -/
def CONTACT_ACK : List Char :=
  "Gracias, hemos recibido tus datos y te contactaremos a la brevedad posible.".toList

/-- `GREETING_KEYWORDS` (chat.py line 74). -/
def GREETING_KEYWORDS : List (List Char) :=
  ["hola".toList, "buen".toList, "buenas".toList, "buenos".toList, "saludos".toList, "hey".toList,
   "holi".toList, "buen dia".toList, "buen día".toList, "qué tal".toList, "como estas".toList]

/-- `COURSE_INTENT_KEYWORDS` (chat.py lines 49-57). -/
def COURSE_INTENT_KEYWORDS : List (List Char) :=
  ["curso".toList, "cursos".toList, "capacitacion".toList, "formacion".toList, "taller".toList,
   "instalaciones".toList, "instalacion".toList]

/-- `SOURCE_INTENT_KEYWORDS` (chat.py lines 43-48), in the dict's insertion
order, which is the iteration order of Python dicts. -/
def SOURCE_INTENT_KEYWORDS : List (List Char × List (List Char)) :=
  [("faq/".toList, ["faq".toList, "preguntas frecuentes".toList, "pregunta frecuente".toList]),
   ("servicios/".toList, ["servicio".toList, "servicios".toList, "contratar".toList, "ofrecemos".toList, "diseno".toList, "proyecto".toList]),
   ("cursos/".toList, ["curso".toList, "cursos".toList, "capacitacion".toList, "formacion".toList, "taller".toList, "educacion".toList]),
   ("software/".toList, ["software".toList, "cype".toList, "sap2000".toList, "etabs".toList, "modelacion".toList, "cypeunext".toList])]

/-- `COURSE_RESPONSE_GUIDELINES` (chat.py lines 58-62). -/
def COURSE_RESPONSE_GUIDELINES : List Char :=
  "Cuando la pregunta sea sobre cursos, confirma que Medif Estructuras ofrece 9 cursos en total (8 de estructuras y 1 de instalaciones), menciona primero esa visión general, luego describe un curso específico documentado en la base de conocimientos y cierra con el llamado a la acción sin negar cursos ni decir “no tengo información”.".toList

/-- `FALLBACK_RESPONSE` (chat.py lines 108-112). -/
def FALLBACK_RESPONSE : List Char :=
  "No tengo suficiente informacion en la base de conocimiento para responder eso. Por favor revisa www.medifestructuras.com o contactanos a eduardo.mediavilla@medifestructuras.com o por telefono al +357 96863257.".toList

/-- `SYSTEM_INSTRUCTIONS` (chat.py lines 99-107). -/
def SYSTEM_INSTRUCTIONS : List Char :=
  "Eres el asistente virtual oficial de Medifestructuras (www.medifestructuras.com). Responde siempre usando solo la informacion que aparece dentro del CONTEXTO y se muy conciso. Si no encuentras la respuesta en el CONTEXTO, deja claro que no la tienes y sugiere visitar la pagina web, escribir a eduardo.mediavilla@medifestructuras.com o llamar al +357 96863257. Evita inventar precios, cursos o servicios que no esten citados. Si el usuario vuelve a preguntar o dice que no entendio, reformula la respuesta con un lenguaje mas simple, ejemplos o pasos. El historial de la conversacion solo sirve para mantener el tono; no lo uses como fuente de hechos.".toList

/-- `HUMAN_SOCIAL_RESPONSES` (chat.py lines 115-236), in source order.  The
dict literal has no repeated keys, so association-list first-match lookup
coincides with Python dict lookup. -/
def HUMAN_SOCIAL_RESPONSES : List (List Char × List Char) := [
  ("hola".toList, "Hola, ¿cómo estás?".toList),
  ("holaa".toList, "Hola, ¿cómo estás?".toList),
  ("holaaa".toList, "Hola, ¿cómo estás?".toList),
  ("holaaaa".toList, "Hola, ¿cómo estás?".toList),
  ("holaaaaa".toList, "Hola, ¿cómo estás?".toList),
  ("holi".toList, "Hola, ¿cómo estás?".toList),
  ("holis".toList, "Hola, ¿cómo estás?".toList),
  ("holita".toList, "Hola, ¿cómo estás?".toList),
  ("ola".toList, "Hola, ¿cómo estás?".toList),
  ("olaa".toList, "Hola, ¿cómo estás?".toList),
  ("olaas".toList, "Hola, ¿cómo estás?".toList),
  ("hello".toList, "Hola, ¿cómo estás?".toList),
  ("hey".toList, "Hola, ¿cómo estás?".toList),
  ("hey!".toList, "Hola, ¿cómo estás?".toList),
  ("ey".toList, "Hola, ¿cómo estás?".toList),
  ("eyy".toList, "Hola, ¿cómo estás?".toList),
  ("buenas".toList, "Hola, ¿cómo estás?".toList),
  ("buenass".toList, "Hola, ¿cómo estás?".toList),
  ("buenas!".toList, "Hola, ¿cómo estás?".toList),
  ("buenas buenas".toList, "Hola, ¿cómo estás?".toList),
  ("buenos dias".toList, "Buenos días, ¿en qué te puedo ayudar?".toList),
  ("buenos días".toList, "Buenos días, ¿en qué te puedo ayudar?".toList),
  ("buen dia".toList, "Buenos días, ¿en qué te puedo ayudar?".toList),
  ("buen día".toList, "Buenos días, ¿en qué te puedo ayudar?".toList),
  ("buenos diass".toList, "Buenos días, ¿en qué te puedo ayudar?".toList),
  ("bd".toList, "Buenos días, ¿en qué te puedo ayudar?".toList),
  ("b dias".toList, "Buenos días, ¿en qué te puedo ayudar?".toList),
  ("buen díaa".toList, "Buenos días, ¿en qué te puedo ayudar?".toList),
  ("buenas tardes".toList, "Buenas tardes, ¿en qué te ayudo?".toList),
  ("buenas tardess".toList, "Buenas tardes, ¿en qué te ayudo?".toList),
  ("bt".toList, "Buenas tardes, ¿en qué te ayudo?".toList),
  ("b tardes".toList, "Buenas tardes, ¿en qué te ayudo?".toList),
  ("tardes".toList, "Buenas tardes, ¿en qué te ayudo?".toList),
  ("buenas noches".toList, "Buenas noches, ¿en qué puedo ayudarte?".toList),
  ("buenas nochess".toList, "Buenas noches, ¿en qué puedo ayudarte?".toList),
  ("bn".toList, "Buenas noches, ¿en qué puedo ayudarte?".toList),
  ("noches".toList, "Buenas noches, ¿en qué puedo ayudarte?".toList),
  ("que tal".toList, "Hola, ¿cómo estás?".toList),
  ("qué tal".toList, "Hola, ¿cómo estás?".toList),
  ("q tal".toList, "Hola, ¿cómo estás?".toList),
  ("como estas".toList, "Hola, ¿cómo estás?".toList),
  ("como estás".toList, "Hola, ¿cómo estás?".toList),
  ("como estas?".toList, "Hola, ¿cómo estás?".toList),
  ("como andas".toList, "Hola, ¿cómo estás?".toList),
  ("como vas".toList, "Hola, ¿cómo estás?".toList),
  ("todo bien".toList, "¡Genial! ¿En qué te puedo ayudar?".toList),
  ("todo ok".toList, "¡Genial! ¿En qué te puedo ayudar?".toList),
  ("todo bien?".toList, "¡Genial! ¿En qué te puedo ayudar?".toList),
  ("todo tranqui".toList, "¡Perfecto! ¿En qué te ayudo?".toList),
  ("que onda".toList, "Hola, ¿cómo estás?".toList),
  ("qué onda".toList, "Hola, ¿cómo estás?".toList),
  ("onda".toList, "Hola, ¿cómo estás?".toList),
  ("que mas".toList, "Hola, ¿cómo estás?".toList),
  ("qué más".toList, "Hola, ¿cómo estás?".toList),
  ("que mas pues".toList, "Hola, ¿cómo estás?".toList),
  ("que hubo".toList, "Hola, ¿cómo estás?".toList),
  ("quiubo".toList, "Hola, ¿cómo estás?".toList),
  ("parce".toList, "Hola, ¿cómo estás?".toList),
  ("parcero".toList, "Hola, ¿cómo estás?".toList),
  ("wey".toList, "Hola, ¿cómo estás?".toList),
  ("weyy".toList, "Hola, ¿cómo estás?".toList),
  ("che".toList, "Hola, ¿cómo estás?".toList),
  ("amigo".toList, "Hola, ¿cómo estás?".toList),
  ("qué pasa".toList, "Hola, ¿cómo estás?".toList),
  ("que pasa".toList, "Hola, ¿cómo estás?".toList),
  ("todo bien tio".toList, "Hola, ¿cómo estás?".toList),
  ("buenas tio".toList, "Hola, ¿cómo estás?".toList),
  ("vale".toList, "Perfecto, quedo atento.".toList),
  ("ok vale".toList, "Perfecto, quedo atento.".toList),
  ("gracias".toList, "¡Con gusto! Si necesitas algo más, aquí estaré.".toList),
  ("graciass".toList, "¡Con gusto! Si necesitas algo más, aquí estaré.".toList),
  ("gracias!".toList, "¡Con gusto! Si necesitas algo más, aquí estaré.".toList),
  ("muchas gracias".toList, "¡Con gusto! Si necesitas algo más, aquí estaré.".toList),
  ("mil gracias".toList, "¡Con gusto! Si necesitas algo más, aquí estaré.".toList),
  ("gracias totales".toList, "¡Con gusto! Si necesitas algo más, aquí estaré.".toList),
  ("thanks".toList, "¡Con gusto! Si necesitas algo más, aquí estaré.".toList),
  ("ok gracias".toList, "¡Con gusto! Si necesitas algo más, aquí estaré.".toList),
  ("gracias amigo".toList, "¡Con gusto! Si necesitas algo más, aquí estaré.".toList),
  ("gracias bro".toList, "¡Con gusto! Si necesitas algo más, aquí estaré.".toList),
  ("ok".toList, "Perfecto, quedo atento.".toList),
  ("okey".toList, "Perfecto, quedo atento.".toList),
  ("oki".toList, "Perfecto, quedo atento.".toList),
  ("okis".toList, "Perfecto, quedo atento.".toList),
  ("perfecto".toList, "Perfecto, quedo atento.".toList),
  ("excelente".toList, "Perfecto, quedo atento.".toList),
  ("genial".toList, "Perfecto, quedo atento.".toList),
  ("de acuerdo".toList, "Perfecto, quedo atento.".toList),
  ("entendido".toList, "Perfecto, gracias por avisar.".toList),
  ("listo".toList, "Perfecto, quedo atento.".toList),
  ("dale".toList, "Perfecto, quedo atento.".toList),
  ("va".toList, "Perfecto, quedo atento.".toList),
  ("bien".toList, "Perfecto, quedo atento.".toList),
  ("chau".toList, "¡Hasta luego! 😊".toList),
  ("chao".toList, "¡Hasta luego! 😊".toList),
  ("adios".toList, "¡Hasta luego! 😊".toList),
  ("adiós".toList, "¡Hasta luego! 😊".toList),
  ("nos vemos".toList, "¡Hasta luego! 😊".toList),
  ("hasta luego".toList, "¡Hasta luego! 😊".toList),
  ("hasta pronto".toList, "¡Hasta pronto! 😊".toList),
  ("bye".toList, "¡Hasta luego! 😊".toList),
  ("bye bye".toList, "¡Hasta luego! 😊".toList)]

/-- `INFORMATIVE_MARKERS` (chat.py lines 268-293).  A Python set; only an
existential scan (`any`) is made over it, so the order is irrelevant. -/
def INFORMATIVE_MARKERS : List (List Char) :=
  ["precio".toList, "costo".toList, "cuesta".toList, "curso".toList, "servicio".toList,
   "informacion".toList, "detalle".toList, "solicito".toList, "saber".toList, "necesito".toList,
   "puedo".toList, "puedes".toList, "instalar".toList, "disenar".toList, "diseno".toList,
   "calcular".toList, "cotizacion".toList, "presupuesto".toList, "proyecto".toList,
   "consulta".toList, "contacto".toList, "telefono".toList, "email".toList, "correo".toList]

/-- `COURTESY_PATTERNS` (chat.py lines 244-266), in source order.  The reply
strings written `HUMAN_SOCIAL_RESPONSES[...]` in the source are spelled out. -/
def COURTESY_PATTERNS : List (List (List Char) × List Char) :=
  [(["agradecid".toList], "¡Con gusto! Si necesitas algo más, aquí estaré.".toList),
   (["agradecid".toList, "respuesta".toList], "¡Con gusto! Si necesitas algo más, aquí estaré.".toList),
   (["muchas".toList, "gracias".toList], "¡Con gusto! Si necesitas algo más, aquí estaré.".toList),
   (["con".toList, "gusto".toList], "¡Con gusto! Si necesitas algo más, aquí estaré.".toList),
   (["gracias".toList], "¡Con gusto! Si necesitas algo más, aquí estaré.".toList),
   (["gracias".toList, "👏".toList], "¡Con gusto! Si necesitas algo más, aquí estaré.".toList),
   (["muchisimas".toList, "gracias".toList], "¡Con gusto! Si necesitas algo más, aquí estaré.".toList),
   (["gracias".toList, "por".toList, "todo".toList], "¡Con gusto! Si necesitas algo más, aquí estaré.".toList),
   (["gracias".toList, "de".toList, "nuevo".toList], "¡Con gusto! Si necesitas algo más, aquí estaré.".toList),
   (["que".toList, "pase".toList, "buen".toList, "dia".toList], "Que tengas un excelente día.".toList),
   (["pase".toList, "buen".toList, "dia".toList], "Que tengas un excelente día.".toList),
   (["que".toList, "este".toList, "bien".toList], "Que estés muy bien.".toList),
   (["que".toList, "este".toList, "muy".toList], "Que estés muy bien.".toList),
   (["todo".toList, "claro".toList], "Perfecto, quedo atento.".toList),
   (["perfecto".toList, "gracias".toList], "Perfecto, quedo atento.".toList),
   (["perfecto".toList], "Perfecto, quedo atento.".toList),
   (["excelente".toList], "Perfecto, quedo atento.".toList),
   (["genial".toList], "Perfecto, quedo atento.".toList),
   (["gracias".toList, "por".toList, "la".toList, "info".toList], "¡Con gusto! Si necesitas algo más, aquí estaré.".toList),
   (["gracias".toList, "por".toList, "todo".toList, "amigo".toList], "¡Con gusto! Si necesitas algo más, aquí estaré.".toList),
   (["gracias".toList, "de".toList, "corazón".toList], "¡Con gusto! Si necesitas algo más, aquí estaré.".toList)]

/-! ### Intent classifiers -/

/-- Python `dict.get` over an association list whose keys are distinct. -/
def lookupTable (table : List (List Char × List Char)) (key : List Char) : Option (List Char) :=
  (table.find? (fun p => p.1 == key)).map (·.2)

/-- `_looks_like_contact` (chat.py lines 76-81): replace `,` and `;` with
spaces, then look for a token holding both `@` and `.`; independently count
the digit characters of the raw message. -/
def looks_like_contact (message : List Char) : Bool :=
  let cleaned := message.map (fun c => if c == ',' || c == ';' then ' ' else c)
  let has_email := (splitWs cleaned).any (fun part => containsSub ("@".toList) part && containsSub (".".toList) part)
  let digits := message.filter isAsciiDigit
  let has_phone := 6 ≤ digits.length
  has_email || has_phone

/-- `_matches_courtesy_pattern` (chat.py lines 304-312). -/
def matches_courtesy_pattern (message normalized : List Char) : Option (List Char) :=
  if containsSub ("?".toList) message || containsSub ("¿".toList) message then none
  else if INFORMATIVE_MARKERS.any (fun marker => containsSub marker normalized) then none
  else COURTESY_PATTERNS.findSome? (fun p =>
    if p.1.all (fun keyword => containsSub keyword normalized) then some p.2 else none)

/-- `_detect_social_response_extended` (chat.py lines 315-320), bound to
`_detect_social_response` at line 661: exact table lookup on the normalized
message (a falsy — empty — stored reply falls through, as under Python's
`if response:`), then the courtesy-pattern scan. -/
def detect_social_response_extended (message : List Char) : Option (List Char) :=
  let normalized := normalize_social_text message
  match lookupTable HUMAN_SOCIAL_RESPONSES normalized with
  | some response =>
      if response.isEmpty then matches_courtesy_pattern message normalized else some response
  | none => matches_courtesy_pattern message normalized

/-- `_append_contact_prompt` (chat.py lines 323-330). -/
def append_contact_prompt (answer : List Char) : List Char :=
  let stripped := pyStrip answer
  if stripped.isEmpty then CONTACT_PROMPT
  else if containsSub CONTACT_PROMPT stripped then stripped
  else
    let punctuation := if decide (stripped.getLast? ∈ [some '.', some '!', some '?']) then [] else ['.']
    stripped ++ punctuation ++ [' '] ++ CONTACT_PROMPT

/-- `_is_course_request` (chat.py lines 388-389). -/
def is_course_request (normalized_message : List Char) : Bool :=
  COURSE_INTENT_KEYWORDS.any (fun keyword => containsSub keyword normalized_message)

/-- `_infer_source_filters` (chat.py lines 391-396). -/
def infer_source_filters (normalized_message : List Char) : List (List Char) :=
  SOURCE_INTENT_KEYWORDS.filterMap (fun p =>
    if p.2.any (fun keyword => containsSub keyword normalized_message) then some p.1 else none)

/-! ### Evidence chunks and the context retrieval engine -/

/-- An evidence chunk as returned by the vector-store collaborator
(`search_similar` / `get_chunks_by_filepaths` in db/vector_store.py): a dict
with keys `text`, `source`, `similarity`.  A missing or `None` text is
modelled as the empty list (both are falsy wherever the code tests
`chunk.get("text")`); a missing source is `none`; a missing similarity is the
Python default `0.0` supplied at every access site. -/
structure Chunk where
  text : List Char
  source : Option (List Char)
  similarity : ℚ
deriving DecidableEq

/-- Python `str.endswith`. -/
def trailsList (tail l : List Char) : Bool :=
  leadsList tail.reverse l.reverse

/-- `_chunk_priority` (chat.py lines 398-408): a falsy (missing or empty)
source is priority 3; otherwise the lowercased basename is compared —
exactly `routing.md` is 0; ending in `_summary.md`, equal to `faq.md`, or
starting with `faq_` while ending with `.md` is 1; anything else is 2. -/
def chunk_priority (source : Option (List Char)) : ℕ :=
  match source with
  | none => 3
  | some src =>
    if src.isEmpty then 3
    else
      let bn := (basename src).map asciiLower
      if bn = "routing.md".toList then 0
      else if trailsList ("_summary.md".toList) bn || bn = "faq.md".toList then 1
      else if leadsList ("faq_".toList) bn && trailsList (".md".toList) bn then 1
      else 2

/-- The sort key of `_select_context_chunks` (chat.py line 416):
`(_chunk_priority(source), -similarity)` compared lexicographically — the
non-strict total preorder sorting by ascending priority with ties broken by
descending similarity. -/
def chunkKeyRel (a b : Chunk) : Prop :=
  chunk_priority a.source < chunk_priority b.source ∨
    (chunk_priority a.source = chunk_priority b.source ∧ b.similarity ≤ a.similarity)

instance : DecidableRel chunkKeyRel :=
  fun _ _ => inferInstanceAs (Decidable (_ ∨ _))

instance : IsTotal Chunk chunkKeyRel := ⟨by
  intro a b
  rcases Nat.lt_trichotomy (chunk_priority a.source) (chunk_priority b.source) with h | h | h
  · exact Or.inl (Or.inl h)
  · rcases le_total a.similarity b.similarity with h2 | h2
    · exact Or.inr (Or.inr ⟨h.symm, h2⟩)
    · exact Or.inl (Or.inr ⟨h, h2⟩)
  · exact Or.inr (Or.inl h)⟩

instance : IsTrans Chunk chunkKeyRel := ⟨by
  intro a b c hab hbc
  rcases hab with h | ⟨h1, h2⟩ <;> rcases hbc with h' | ⟨h1', h2'⟩
  · exact Or.inl (h.trans h')
  · exact Or.inl (h1' ▸ h)
  · exact Or.inl (h1 ▸ h')
  · exact Or.inr ⟨h1.trans h1', h2'.trans h2⟩⟩

/-- The `candidates` filter and the `sorted_chunks` sort of
`_select_context_chunks` (chat.py lines 411-417).  Python's `sorted` is a
stable sort by the key `(priority, -similarity)`; `List.insertionSort` with
the corresponding non-strict total preorder `chunkKeyRel` is stable in the
same sense (an element is inserted before the first element it ties with,
i.e. equal-key elements keep their original relative order), so the two
produce the same list. -/
def sorted_chunks (chunks : List Chunk) : List Chunk :=
  List.insertionSort chunkKeyRel (chunks.filter (fun c => !c.text.isEmpty))

/-- The selection loop of `_select_context_chunks` (chat.py lines 418-433),
keeping for each selected chunk the pair (stripped text, source-with-empty-
default) so that the per-source deduplication is stated about data the
source actually tracks in `seen_sources`; `select_context_chunks` projects
the texts. -/
def selectGo (limit : ℕ) :
    List Chunk → List (List Char × List Char) → List (List Char) → List (List Char) →
    List (List Char × List Char)
  | [], selected, _, _ => selected
  | chunk :: rest, selected, seen_sources, seen_texts =>
    if limit ≤ selected.length then selected
    else
      let text := pyStrip chunk.text
      if text.isEmpty then selectGo limit rest selected seen_sources seen_texts
      else
        let source := chunk.source.getD []
        let normalized_text := normTL text
        if seen_sources.contains source || seen_texts.contains normalized_text then
          selectGo limit rest selected seen_sources seen_texts
        else
          selectGo limit rest (selected ++ [(text, source)])
            (seen_sources ++ [source]) (seen_texts ++ [normalized_text])

/-- The selected (stripped text, source) pairs of `_select_context_chunks`. -/
def select_context_pairs (chunks : List Chunk) (limit : ℕ) : List (List Char × List Char) :=
  selectGo limit (sorted_chunks chunks) [] [] []

/-- `_select_context_chunks` (chat.py lines 410-434). -/
def select_context_chunks (chunks : List Chunk) (limit : ℕ) : List (List Char) :=
  (select_context_pairs chunks limit).map (fun p => p.1)

/-- The threshold filter of `_retrieve_context` (chat.py lines 477-479): a
chunk survives iff its similarity is at least `MIN_CONTEXT_SIMILARITY`. -/
def valid_chunks (chunks : List Chunk) : List Chunk :=
  chunks.filter (fun c => MIN_CONTEXT_SIMILARITY ≤ c.similarity)

/-- `best_similarity` (chat.py line 480):
`max((similarity of the survivors), default=0.0)`. -/
def best_similarity (chunks : List Chunk) : ℚ :=
  match (valid_chunks chunks).map (fun c => c.similarity) with
  | [] => 0
  | x :: rest => rest.foldl max x

/-- `_dot_product` (chat.py lines 385-386). -/
def dot_product (a b : List ℚ) : ℚ :=
  ((a.zip b).map (fun p => p.1 * p.2)).sum

/-- The candidate loop of `_validate_keyword_chunks` (chat.py lines 443-460).
Each candidate text from `find_texts_with_keywords` is paired with the
embedding its re-validation obtains; `none` models `embed_query` raising (the
`except` branch that skips the candidate).  The second component is the final
state of the mutated `existing_texts` set — the caller's `dedup_texts`. -/
def validateGo (query_embedding : List ℚ) :
    List (List Char × Option (List ℚ)) → List (List Char) →
    List (List Char) × List (List Char)
  | [], existing_texts => ([], existing_texts)
  | (text, emb) :: rest, existing_texts =>
    let normalized_candidate := pyStrip text
    if normalized_candidate.isEmpty then validateGo query_embedding rest existing_texts
    else
      let normalized_lower := normTL normalized_candidate
      if normalized_lower.isEmpty || existing_texts.contains normalized_lower then
        validateGo query_embedding rest existing_texts
      else
        match emb with
        | none => validateGo query_embedding rest existing_texts
        | some chunk_embedding =>
          if MIN_CONTEXT_SIMILARITY ≤ dot_product query_embedding chunk_embedding then
            let next := validateGo query_embedding rest (existing_texts ++ [normalized_lower])
            (normalized_candidate :: next.1, next.2)
          else validateGo query_embedding rest existing_texts

/-- `_validate_keyword_chunks` (chat.py lines 437-460). -/
def validate_keyword_chunks (query_embedding : List ℚ) (keywords : List (List Char))
    (candidates : List (List Char × Option (List ℚ))) (existing_texts : List (List Char)) :
    List (List Char) × List (List Char) :=
  if keywords.isEmpty then ([], existing_texts)
  else validateGo query_embedding candidates existing_texts

/-- The forced course-overview step of `_retrieve_context` (chat.py lines
485-496): walk the chunks fetched for `COURSE_OVERVIEW_FILE`, skip chunks
with empty stripped text or an already recorded normalized text, append the
first acceptable one and stop (the `break`). -/
def overviewStep :
    List Chunk → List (List Char) → List (List Char) → List (List Char) × List (List Char)
  | [], context_chunks, dedup_texts => (context_chunks, dedup_texts)
  | chunk :: rest, context_chunks, dedup_texts =>
    let overview_text := pyStrip chunk.text
    if overview_text.isEmpty then overviewStep rest context_chunks dedup_texts
    else
      let normalized_overview := normTL overview_text
      if dedup_texts.contains normalized_overview then overviewStep rest context_chunks dedup_texts
      else (context_chunks ++ [overview_text], dedup_texts ++ [normalized_overview])

/-- The ranked-chunk loop of `_retrieve_context` (chat.py lines 498-505). -/
def selectedLoop (limit : ℕ) :
    List (List Char) → List (List Char) → List (List Char) → List (List Char) × List (List Char)
  | [], context_chunks, dedup_texts => (context_chunks, dedup_texts)
  | chunk_text :: rest, context_chunks, dedup_texts =>
    if limit ≤ context_chunks.length then (context_chunks, dedup_texts)
    else
      let normalized_chunk := normTL chunk_text
      if normalized_chunk.isEmpty || dedup_texts.contains normalized_chunk then
        selectedLoop limit rest context_chunks dedup_texts
      else
        selectedLoop limit rest (context_chunks ++ [chunk_text]) (dedup_texts ++ [normalized_chunk])

/-- The keyword-chunk loop of `_retrieve_context` (chat.py lines 508-518). -/
def keywordLoop (limit : ℕ) :
    List (List Char) → List (List Char) → List (List Char) → List (List Char) × List (List Char)
  | [], context_chunks, dedup_texts => (context_chunks, dedup_texts)
  | keyword_chunk :: rest, context_chunks, dedup_texts =>
    if limit ≤ context_chunks.length then (context_chunks, dedup_texts)
    else
      let trimmed := pyStrip keyword_chunk
      if trimmed.isEmpty then keywordLoop limit rest context_chunks dedup_texts
      else
        let normalized_keyword := normTL trimmed
        if normalized_keyword.isEmpty || dedup_texts.contains normalized_keyword then
          keywordLoop limit rest context_chunks dedup_texts
        else
          keywordLoop limit rest (context_chunks ++ [trimmed]) (dedup_texts ++ [normalized_keyword])

/-- The dict `_retrieve_context` returns (chat.py lines 520-528). -/
structure RetrievalResult where
  query_embedding : List ℚ
  similar_chunks : ℕ
  keyword_chunks : ℕ
  best_similarity : ℚ
  context_chunks : List (List Char)
  source_filters : List (List Char)
  used_chunks : ℕ
deriving DecidableEq

/-- `_retrieve_context` (chat.py lines 463-528).  Collaborator responses are
parameters: `query_embedding` is the value `embed_query(user_message)`
returned (the raising case is handled by the orchestrator model),
`similar_chunks_in` is the `search_similar` response, `overview_chunks` the
`get_chunks_by_filepaths((COURSE_OVERVIEW_FILE,))` response, and
`keyword_candidates` the `find_texts_with_keywords` hits, each paired with
the embedding obtained when re-validating it. -/
def retrieve_context (query_embedding : List ℚ) (similar_chunks_in : List Chunk)
    (overview_chunks : List Chunk) (keywords : List (List Char))
    (keyword_candidates : List (List Char × Option (List ℚ)))
    (normalized_message : List Char) (course_intent : Bool) : RetrievalResult :=
  let source_filters := infer_source_filters normalized_message
  let valid := valid_chunks similar_chunks_in
  let best := best_similarity similar_chunks_in
  let selected := select_context_chunks valid CONTEXT_CHUNK_SEND_LIMIT
  let state1 := if course_intent then overviewStep overview_chunks [] [] else ([], [])
  let state2 := selectedLoop CONTEXT_CHUNK_SEND_LIMIT selected state1.1 state1.2
  let kw := validate_keyword_chunks query_embedding keywords keyword_candidates state2.2
  let state3 := keywordLoop CONTEXT_CHUNK_SEND_LIMIT kw.1 state2.1 kw.2
  { query_embedding := query_embedding
    similar_chunks := valid.length
    keyword_chunks := kw.1.length
    best_similarity := best
    context_chunks := state3.1
    source_filters := source_filters
    used_chunks := state3.1.length }

/-! ### History rendering, truncation, prompt assembly -/

/-- A conversation turn as the history store returns it (a dict with `role`
and `content`; the orchestrator reads both with defaulting `get`). -/
structure Turn where
  role : List Char
  content : List Char
deriving DecidableEq

/-- `_truncate` (chat.py lines 345-348): head truncation, `text[:limit]`. -/
def truncate (text : List Char) (limit : ℕ) : List Char :=
  if text.length ≤ limit then text else text.take limit

/-- `_truncate_history` (chat.py lines 351-354): tail truncation,
`text[-limit:]`. -/
def truncate_history (text : List Char) (limit : ℕ) : List Char :=
  if text.length ≤ limit then text else text.drop (text.length - limit)

/-- Python `history[-n:]`: the last `n` entries (all of them when fewer). -/
def takeLast (n : ℕ) (l : List Turn) : List Turn :=
  l.drop (l.length - n)

/-- One rendered history line of `_format_history` (chat.py lines 361-363):
`"Usuario: ..."` for the `user` role, `"Asistente: ..."` otherwise, with the
content stripped. -/
def renderTurn (msg : Turn) : List Char :=
  (if msg.role = "user".toList then "Usuario: ".toList else "Asistente: ".toList) ++ pyStrip msg.content

/-- The rendering of `_format_history` before truncation (chat.py lines
358-368): the last `MAX_HISTORY_LINES` turns, one line each, joined with
newlines, or the placeholder when there is no history. -/
def rendered_history (history : List Turn) : List Char :=
  let history_lines := (takeLast MAX_HISTORY_LINES history).map renderTurn
  if history_lines.isEmpty then "(no previous messages)".toList
  else joinSep ("\n".toList) history_lines

/-- `_format_history` (chat.py lines 357-369): the tail-truncated rendering
paired with the most recent assistant content (if any). -/
def format_history (history : List Turn) : List Char × Option (List Char) :=
  let last_assistant_reply :=
    (history.reverse.find? (fun msg => msg.role == "assistant".toList)).map (fun msg => msg.content)
  (truncate_history (rendered_history history) 800, last_assistant_reply)

/-- `_build_previous_answer_block` (chat.py lines 372-382). -/
def build_previous_answer_block (last_assistant_reply : Option (List Char)) : List Char :=
  match last_assistant_reply with
  | none => []
  | some reply =>
    if reply.isEmpty then []
    else
      "Tu respuesta anterior fue:\n\"\"\"\n".toList ++ pyStrip reply ++
      "\n\"\"\"\nEl usuario volvio a consultar o indico que no entendio. No repitas la misma redaccion ni estructura; explicalo con lenguaje mas simple, pasos o ejemplos, pero mantente preciso.".toList

/-- `_build_prompt` (chat.py lines 531-547): join the nonempty sections with
blank lines and strip the result. -/
def build_prompt (previous_answer_block history_text context user_message : List Char)
    (course_instruction : Option (List Char)) : List Char :=
  let sections : List (List Char) :=
    [SYSTEM_INSTRUCTIONS,
     course_instruction.getD [],
     previous_answer_block,
     "Conversacion hasta ahora:\n".toList ++ history_text,
     "CONTEXTO:\n".toList ++ context,
     "NUEVA PREGUNTA DEL USUARIO:\n".toList ++ user_message,
     "RESPUESTA:".toList]
  pyStrip (joinSep ("\n\n".toList) (sections.filter (fun sec => !sec.isEmpty)))

/-! ### The embedding client and the vector helper -/

/-- Σ xᵢ², the square of the Euclidean norm `np.linalg.norm` computes. -/
def sumSq (l : List ℚ) : ℚ :=
  (l.map (fun x => x * x)).sum

/-- `normalize_embedding` from src/src/backend/app/utils/vector.py, over
exact rationals.  A Python list of floats always becomes a 1-D array, so
`vector.ndim != 1` is false for every input of this type and the first guard
is the size check.  In exact arithmetic the norm `√(Σ xᵢ²)` is always finite
and is zero iff `Σ xᵢ² = 0`, so the source's `not isfinite(norm) or norm == 0`
guard is the test `Σ xᵢ² = 0`.  The source returns
`(embedding / norm, norm)`; since the norm is irrational in general, the
model returns the exact data `(embedding, Σ xᵢ²)` from which that value is
the entrywise quotient by `√(Σ xᵢ²)` together with `√(Σ xᵢ²)` — a scaling
that exists, is invertible and preserves the list length, so the raising
behaviour and every dimension are represented exactly. -/
def normalize_embedding (embedding : List ℚ) (expected_dim : ℕ) :
    Except (List Char) (List ℚ × ℚ) :=
  if embedding.length ≠ expected_dim then
    Except.error ("Embedding dimension does not match expected".toList)
  else if sumSq embedding = 0 then
    Except.error ("Embedding norm must be finite and non-zero.".toList)
  else Except.ok (embedding, sumSq embedding)

/-- `embed_query` from src/src/backend/app/llm/embeddings.py.  `service`
stands for `_cached_embedding` — the HTTP call to the embedding model plus
`normalize_embedding` — and is only consulted after the guard: an empty
normalized text raises `ValueError` first, so the result of the guard path is
the same for every `service`. -/
def embed_query (service : List Char → List ℚ) (text : List Char) :
    Except (List Char) (List ℚ) :=
  let normalized_text := normalize_text text
  if normalized_text.isEmpty then
    Except.error ("Input text must contain readable characters.".toList)
  else Except.ok (service normalized_text)

/-! ### The conversation orchestrator -/

/-- The observable outcome of one `/chat` invocation (chat.py lines 550-659).
`answered` records whether `generate_response` was invoked for the reply
(false on the empty-context fallback path).  The persisted assistant message
equals the returned response on every path that persists (the source saves
and returns the same variable), so one field covers both. -/
inductive ChatOutcome where
  | badRequest
  | contactAck (response : List Char)
  | social (response : List Char)
  | retrievalError
  | generationError
  | answered (usedGeneration : Bool) (response : List Char)
deriving DecidableEq

/-- The `/chat` handler (chat.py lines 550-659).  Collaborator interactions
are parameters: `history` is the `get_recent_messages` response,
`ragOutcome` the result of the `_retrieve_context` attempt (`Except.error`
models the `except` branch that turns any retrieval failure into the 500
`HTTPException`), and `gen` the `generate_response` service (`Except.error`
models it raising).  Persistence (`save_message`) and the artificial delays
have no bearing on the returned value and are not represented. -/
def chat (message : List Char) (history : List Turn)
    (ragOutcome : Except Unit RetrievalResult)
    (gen : List Char → Except Unit (List Char)) : ChatOutcome :=
  let user_message := pyStrip message
  if user_message.isEmpty then ChatOutcome.badRequest
  else
    let normalized_message := normalize_social_text user_message
    let course_intent := is_course_request normalized_message
    if looks_like_contact user_message then
      ChatOutcome.contactAck (append_contact_prompt CONTACT_ACK)
    else
      match detect_social_response_extended user_message with
      | some short_response =>
        let is_greeting := normalized_message ∈ GREETING_KEYWORDS
        ChatOutcome.social
          (if is_greeting then short_response else append_contact_prompt short_response)
      | none =>
        match ragOutcome with
        | Except.error _ => ChatOutcome.retrievalError
        | Except.ok rag =>
          let fh := format_history history
          if rag.context_chunks.isEmpty then
            ChatOutcome.answered false (append_contact_prompt FALLBACK_RESPONSE)
          else
            let context := truncate (joinSep ("\n\n".toList) rag.context_chunks) MAX_CONTEXT_CHARS
            let prompt := build_prompt (build_previous_answer_block fh.2) fh.1 context
              user_message (if course_intent then some COURSE_RESPONSE_GUIDELINES else none)
            match gen prompt with
            | Except.error _ => ChatOutcome.generationError
            | Except.ok answer => ChatOutcome.answered true (append_contact_prompt answer)

/-! ### Concrete scenarios and claim-side comparison definitions -/

/-- The 0.9-similarity chunk of the spec's retrieval-threshold scenario. -/
def chunk09 : Chunk := ⟨"alpha".toList, some ("a.md".toList), ⟨9, 10, by decide, by decide⟩⟩

/-- The 0.65-similarity chunk of the spec's retrieval-threshold scenario. -/
def chunk065 : Chunk := ⟨"beta".toList, some ("b.md".toList), ⟨13, 20, by decide, by decide⟩⟩

/-- The 0.4-similarity chunk of the spec's retrieval-threshold scenario. -/
def chunk04 : Chunk := ⟨"gamma".toList, some ("c.md".toList), ⟨2, 5, by decide, by decide⟩⟩

/-- The spec's retrieval-threshold scenario: similarities [0.9, 0.65, 0.4]. -/
def thresholdScenario : List Chunk := [chunk09, chunk065, chunk04]

/-- A `routing.md` chunk with similarity 0.61 (spec's priority scenario). -/
def routingChunk : Chunk :=
  ⟨"routing text".toList, some ("kb/routing.md".toList), ⟨61, 100, by decide, by decide⟩⟩

/-- An `other.md` chunk with similarity 0.99 (spec's priority scenario). -/
def otherChunk : Chunk :=
  ⟨"other text".toList, some ("docs/other.md".toList), ⟨99, 100, by decide, by decide⟩⟩

/-- A chunk whose source basename starts with `faq_` but does not end with
`.md`, with similarity 0.7. -/
def faqTxtChunk : Chunk :=
  ⟨"faq text".toList, some ("docs/faq_info.txt".toList), ⟨7, 10, by decide, by decide⟩⟩

/-- A 0.9-similarity chunk whose text "Holaaa!!" differs from `holaChunkB`'s
under `normalize_text` + lowercase but not under the §4.1 social normalizer. -/
def holaChunkA : Chunk := ⟨"Holaaa!!".toList, some ("a.md".toList), ⟨9, 10, by decide, by decide⟩⟩

/-- A 0.8-similarity chunk with text "Holaa" (see `holaChunkA`). -/
def holaChunkB : Chunk := ⟨"Holaa".toList, some ("b.md".toList), ⟨4, 5, by decide, by decide⟩⟩

/-- The priority key exactly as claim C2 states it: basename (lowercased)
exactly `routing.md` is 0; ending in `_summary.md`, equal to `faq.md`, or
starting with `faq_` is 1; every other source is 2.  Written from the claim's
words, for comparison with the source's `chunk_priority`. -/
def claim_chunk_priority (source : Option (List Char)) : ℕ :=
  let bn := (basename (source.getD [])).map asciiLower
  if bn = "routing.md".toList then 0
  else if trailsList ("_summary.md".toList) bn || bn = "faq.md".toList || leadsList ("faq_".toList) bn then 1
  else 2

/-- The contact detector exactly as claim C6 states it: some
whitespace-delimited token of the raw message contains both `@` and `.`, or
the message has at least six digit characters.  Written from the claim's
words, for comparison with the source's `looks_like_contact`. -/
def claim_looks_like_contact (message : List Char) : Bool :=
  (splitWs message).any (fun tok => containsSub ("@".toList) tok && containsSub (".".toList) tok) ||
  6 ≤ (message.filter isAsciiDigit).length

/-- The deduplication invariant threaded through `_retrieve_context`'s
accumulation loops: every recorded context chunk has its normalized text in
`dedup_texts`, and the normalized texts of the recorded chunks are pairwise
distinct. -/
def DedupInv (context_chunks dedup_texts : List (List Char)) : Prop :=
  (∀ t ∈ context_chunks, normTL t ∈ dedup_texts) ∧
  context_chunks.Pairwise (fun a b => normTL a ≠ normTL b)

/-- `a` is a contiguous tail (suffix) of `b`. -/
def isTailOf (a b : List Char) : Prop := ∃ t, b = t ++ a

/-- `a` is a contiguous head (prefix) of `b`. -/
def isHeadOf (a b : List Char) : Prop := ∃ t, b = a ++ t

/-- `settings.embedding_dimension`, default 768 (config.py line 28). -/
def embedding_dimension : ℕ := 768

/-- A retrieval result with no context chunks. -/
def ragEmpty : RetrievalResult := ⟨[], 0, 0, 0, [], [], 0⟩

/-- Ten history turns whose rendering exceeds 800 characters. -/
def hist10 : List Turn := List.replicate 10 ⟨"user".toList, List.replicate 300 'x'⟩

/-! ### Helper lemmas -/

lemma init_le_foldlMax (x : ℚ) (rest : List ℚ) : x ≤ rest.foldl max x := by
  induction rest generalizing x with
  | nil => exact le_refl x
  | cons r rs ih => exact le_trans (le_max_left x r) (ih (max x r))

lemma mem_le_foldlMax (x a : ℚ) (rest : List ℚ) (ha : a ∈ rest) : a ≤ rest.foldl max x := by
  induction rest generalizing x with
  | nil => cases ha
  | cons r rs ih =>
    rcases List.mem_cons.mp ha with h | h
    · subst h
      exact le_trans (le_max_right x a) (init_le_foldlMax (max x a) rs)
    · exact ih (max x r) h

lemma foldlMax_cases (x : ℚ) (rest : List ℚ) : rest.foldl max x = x ∨ rest.foldl max x ∈ rest := by
  induction rest generalizing x with
  | nil => exact Or.inl rfl
  | cons r rs ih =>
    rcases ih (max x r) with h | h
    · rcases max_choice x r with hm | hm
      · exact Or.inl (by rw [List.foldl_cons, h, hm])
      · exact Or.inr (by rw [List.foldl_cons, h, hm]; exact List.mem_cons_self r rs)
    · exact Or.inr (List.mem_cons_of_mem r h)

/-- C1: In `_retrieve_context`, a chunk returned by the vector similarity
search survives to ranking iff its similarity is at least the configured
minimum threshold `MIN_CONTEXT_SIMILARITY` (default 0.6): by definition of
`retrieve_context`, the ranking stage (`select_context_chunks`) receives
exactly `valid_chunks`.  For similarities [0.9, 0.65, 0.4] exactly the 0.9
and 0.65 chunks survive, and the 0.4 chunk never reaches ranking;
`best_similarity` is the maximum similarity among the survivors (0.9 in the
scenario; attained and an upper bound in general) and 0 when no chunk
survives. -/
theorem C1_similarity_threshold :
    MIN_CONTEXT_SIMILARITY = 6/10
    ∧ (∀ chunks c, c ∈ valid_chunks chunks ↔ (c ∈ chunks ∧ MIN_CONTEXT_SIMILARITY ≤ c.similarity))
    ∧ valid_chunks thresholdScenario = [chunk09, chunk065]
    ∧ chunk04 ∉ valid_chunks thresholdScenario
    ∧ select_context_chunks (valid_chunks thresholdScenario) CONTEXT_CHUNK_SEND_LIMIT
        = ["alpha".toList, "beta".toList]
    ∧ best_similarity thresholdScenario = chunk09.similarity
    ∧ (∀ chunks, valid_chunks chunks = [] → best_similarity chunks = 0)
    ∧ (∀ chunks c, c ∈ valid_chunks chunks → c.similarity ≤ best_similarity chunks)
    ∧ (∀ chunks, valid_chunks chunks ≠ [] →
        best_similarity chunks ∈ (valid_chunks chunks).map (fun c => c.similarity)) := by
  refine ⟨?_, ?_, by decide, by decide, by decide, by decide, ?_, ?_, ?_⟩
  · rw [show MIN_CONTEXT_SIMILARITY = (⟨3, 5, by decide, by decide⟩ : ℚ) from rfl,
      Rat.mk'_eq_divInt, Rat.divInt_eq_div]
    norm_num
  · intro chunks c
    simp [valid_chunks, List.mem_filter]
  · intro chunks h
    simp [best_similarity, h]
  · intro chunks c hc
    have hmem : c.similarity ∈ (valid_chunks chunks).map (fun c => c.similarity) :=
      List.mem_map_of_mem _ hc
    unfold best_similarity
    rcases hl : (valid_chunks chunks).map (fun c => c.similarity) with _ | ⟨x, rest⟩
    · rw [hl] at hmem; cases hmem
    · rw [hl] at hmem
      rw [hl]
      show c.similarity ≤ List.foldl max x rest
      rcases List.mem_cons.mp hmem with h | h
      · subst h; exact init_le_foldlMax _ _
      · exact mem_le_foldlMax _ _ _ h
  · intro chunks hne
    unfold best_similarity
    rcases hl : (valid_chunks chunks).map (fun c => c.similarity) with _ | ⟨x, rest⟩
    · exact absurd (List.map_eq_nil_iff.mp hl) hne
    · rw [hl]
      show List.foldl max x rest ∈ x :: rest
      rcases foldlMax_cases x rest with h | h
      · rw [h]; exact List.mem_cons_self x rest
      · exact List.mem_cons_of_mem x h

/-- Witness for `C1_similarity_threshold`: its universally quantified parts
applied to the concrete threshold scenario. -/
theorem C1_similarity_threshold_witness :
    (chunk09 ∈ valid_chunks thresholdScenario ∧
      chunk09.similarity ≤ best_similarity thresholdScenario) ∧
    best_similarity thresholdScenario ∈
      (valid_chunks thresholdScenario).map (fun c => c.similarity) :=
  ⟨⟨by decide, C1_similarity_threshold.2.2.2.2.2.2.2.1 thresholdScenario chunk09 (by decide)⟩,
   C1_similarity_threshold.2.2.2.2.2.2.2.2 thresholdScenario (by decide)⟩

lemma selectGo_length (limit : ℕ) (l : List Chunk) :
    ∀ (selected : List (List Char × List Char)) (seenS seenT : List (List Char)),
      selected.length ≤ limit → (selectGo limit l selected seenS seenT).length ≤ limit := by
  induction l with
  | nil => intro selected _ _ h; exact h
  | cons chunk rest ih =>
    intro selected seenS seenT h
    rw [selectGo]
    split
    · exact h
    · next hlt =>
      dsimp only
      split
      · exact ih _ _ _ h
      · split
        · exact ih _ _ _ h
        · refine ih _ _ _ ?_
          rw [List.length_append, List.length_singleton]
          omega

/-- C2 (amended): threshold survivors are stable-sorted by ascending
`chunk_priority` — lowercased basename exactly "routing.md" → 0; ending in
"_summary.md", equal to "faq.md", or starting with "faq_" AND ending with
".md" → 1; every other nonempty source → 2 (a missing or empty source → 3) —
with ties broken by descending similarity (`chunkKeyRel`), and chunks are
then selected greedily up to the cap; in particular a "routing.md" chunk with
similarity 0.61 is ordered and selected before an "other.md" chunk with
similarity 0.99. -/
theorem C2_priority_ranking :
    (∀ chunks, (sorted_chunks chunks).Sorted chunkKeyRel)
    ∧ (∀ chunks limit, (select_context_chunks chunks limit).length ≤ limit)
    ∧ chunk_priority (some ("kb/routing.md".toList)) = 0
    ∧ chunk_priority (some ("docs/notas_summary.md".toList)) = 1
    ∧ chunk_priority (some ("faq.md".toList)) = 1
    ∧ chunk_priority (some ("docs/faq_precios.md".toList)) = 1
    ∧ chunk_priority (some ("docs/other.md".toList)) = 2
    ∧ select_context_chunks [otherChunk, routingChunk] 5 =
        ["routing text".toList, "other text".toList] := by
  refine ⟨?_, ?_, by decide, by decide, by decide, by decide, by decide, by decide⟩
  · intro chunks
    exact List.sorted_insertionSort chunkKeyRel _
  · intro chunks limit
    rw [select_context_chunks, List.length_map]
    exact selectGo_length limit _ _ _ _ (by simp)

/-- Counterexample to C2 as stated: the claim assigns priority 1 to every
source whose basename starts with "faq_", but `_chunk_priority` additionally
requires the basename to end with ".md"; for "docs/faq_info.txt" the code
yields priority 2, and consequently the higher-similarity priority-2 chunk
from "other.md" (similarity 0.9) is ordered and selected before the
"faq_info.txt" chunk (similarity 0.7), while the claim's ordering (priority 1
before priority 2, regardless of similarity) requires the "faq_info.txt"
chunk first. -/
theorem C2_cex :
    claim_chunk_priority (some ("docs/faq_info.txt".toList)) = 1
    ∧ chunk_priority (some ("docs/faq_info.txt".toList)) = 2
    ∧ select_context_chunks [faqTxtChunk, otherChunk] 5 =
        ["other text".toList, "faq text".toList] :=
  ⟨by decide, by decide, by decide⟩

lemma dedupInv_nil : DedupInv [] [] := ⟨by simp, List.Pairwise.nil⟩

lemma dedupInv_append {ctx dedup : List (List Char)} (t : List Char)
    (h : DedupInv ctx dedup) (hnot : normTL t ∉ dedup) :
    DedupInv (ctx ++ [t]) (dedup ++ [normTL t]) := by
  constructor
  · intro a ha
    rcases List.mem_append.mp ha with ha | ha
    · exact List.mem_append_left _ (h.1 a ha)
    · rw [List.mem_singleton] at ha
      subst ha
      exact List.mem_append_right _ (List.mem_singleton_self _)
  · rw [List.pairwise_append]
    refine ⟨h.2, List.pairwise_singleton _ _, ?_⟩
    intro a ha b hb
    rw [List.mem_singleton] at hb
    subst hb
    intro heq
    exact hnot (heq ▸ h.1 a ha)

lemma dedupInv_mono {ctx dedup dedup' : List (List Char)}
    (h : DedupInv ctx dedup) (hsub : ∀ x ∈ dedup, x ∈ dedup') : DedupInv ctx dedup' :=
  ⟨fun t ht => hsub _ (h.1 t ht), h.2⟩

lemma overviewStep_inv (l : List Chunk) :
    ∀ (ctx dedup : List (List Char)), DedupInv ctx dedup →
      DedupInv (overviewStep l ctx dedup).1 (overviewStep l ctx dedup).2 := by
  induction l with
  | nil => intro ctx dedup h; exact h
  | cons chunk rest ih =>
    intro ctx dedup h
    rw [overviewStep]
    dsimp only
    split
    · exact ih _ _ h
    · split
      · exact ih _ _ h
      · next hcont =>
        exact dedupInv_append _ h (by simpa using hcont)

lemma selectedLoop_inv (limit : ℕ) (l : List (List Char)) :
    ∀ (ctx dedup : List (List Char)), DedupInv ctx dedup →
      DedupInv (selectedLoop limit l ctx dedup).1 (selectedLoop limit l ctx dedup).2 := by
  induction l with
  | nil => intro ctx dedup h; exact h
  | cons t rest ih =>
    intro ctx dedup h
    rw [selectedLoop]
    dsimp only
    split
    · exact h
    · split
      · exact ih _ _ h
      · next hcond =>
        rw [Bool.or_eq_true, not_or] at hcond
        exact ih _ _ (dedupInv_append _ h (by simpa using hcond.2))

lemma keywordLoop_inv (limit : ℕ) (l : List (List Char)) :
    ∀ (ctx dedup : List (List Char)), DedupInv ctx dedup →
      DedupInv (keywordLoop limit l ctx dedup).1 (keywordLoop limit l ctx dedup).2 := by
  induction l with
  | nil => intro ctx dedup h; exact h
  | cons t rest ih =>
    intro ctx dedup h
    rw [keywordLoop]
    dsimp only
    split
    · exact h
    · split
      · exact ih _ _ h
      · split
        · exact ih _ _ h
        · next hcond =>
          rw [Bool.or_eq_true, not_or] at hcond
          exact ih _ _ (dedupInv_append _ h (by simpa using hcond.2))

lemma validateGo_sub (q : List ℚ) (cands : List (List Char × Option (List ℚ))) :
    ∀ (existing : List (List Char)) (x : List Char),
      x ∈ existing → x ∈ (validateGo q cands existing).2 := by
  induction cands with
  | nil => intro existing x hx; exact hx
  | cons cand rest ih =>
    intro existing x hx
    rw [validateGo]
    dsimp only
    split
    · exact ih _ _ hx
    · split
      · exact ih _ _ hx
      · split
        · exact ih _ _ hx
        · split
          · exact ih _ _ (List.mem_append_left _ hx)
          · exact ih _ _ hx

lemma validate_keyword_chunks_sub (q : List ℚ) (kws : List (List Char))
    (cands : List (List Char × Option (List ℚ))) (existing : List (List Char)) :
    ∀ x ∈ existing, x ∈ (validate_keyword_chunks q kws cands existing).2 := by
  intro x hx
  rw [validate_keyword_chunks]
  split
  · exact hx
  · exact validateGo_sub q cands existing x hx

lemma selectGo_srcInv (limit : ℕ) (l : List Chunk) :
    ∀ (selected : List (List Char × List Char)) (seenS seenT : List (List Char)),
      (∀ p ∈ selected, p.2 ∈ seenS) → selected.Pairwise (fun a b => a.2 ≠ b.2) →
      (selectGo limit l selected seenS seenT).Pairwise (fun a b => a.2 ≠ b.2) := by
  induction l with
  | nil => intro selected _ _ _ hp; exact hp
  | cons chunk rest ih =>
    intro selected seenS seenT hmem hp
    rw [selectGo]
    split
    · exact hp
    · dsimp only
      split
      · exact ih _ _ _ hmem hp
      · split
        · exact ih _ _ _ hmem hp
        · next hcond =>
          rw [Bool.or_eq_true, not_or] at hcond
          have hsrc : chunk.source.getD [] ∉ seenS := by simpa using hcond.1
          refine ih _ _ _ ?_ ?_
          · intro p hp2
            rcases List.mem_append.mp hp2 with h | h
            · exact List.mem_append_left _ (hmem p h)
            · rw [List.mem_singleton] at h
              subst h
              exact List.mem_append_right _ (List.mem_singleton_self _)
          · rw [List.pairwise_append]
            refine ⟨hp, List.pairwise_singleton _ _, ?_⟩
            intro a ha b hb
            rw [List.mem_singleton] at hb
            subst hb
            intro heq
            have := hmem a ha
            rw [heq] at this
            exact hsrc this

/-- C3 (amended): for every `RetrievalResult`, any two chunks in its
`context_chunks` have different normalized texts, where the normalization is
the one the retrieval code actually applies — `normalize_text` (NFC, control
characters to spaces, whitespace collapsed, stripped) followed by
lowercasing — not the §4.1 social normalizer; and any two chunks selected by
the similarity-ranking stage (`_select_context_chunks`, i.e. every selected
chunk absent the forced course-overview injection) come from different source
paths. -/
theorem C3_dedup_invariant :
    (∀ (query_embedding : List ℚ) (similar overview : List Chunk)
        (keywords : List (List Char)) (candidates : List (List Char × Option (List ℚ)))
        (nm : List Char) (ci : Bool),
        (retrieve_context query_embedding similar overview keywords candidates nm ci).context_chunks.Pairwise
          (fun a b => normTL a ≠ normTL b))
    ∧ (∀ (chunks : List Chunk) (limit : ℕ),
        (select_context_pairs chunks limit).Pairwise (fun a b => a.2 ≠ b.2)) := by
  constructor
  · intro q sc oc kw kc nm ci
    unfold retrieve_context
    dsimp only
    have h1 : DedupInv (if ci then overviewStep oc [] [] else ([], [])).1
        (if ci then overviewStep oc [] [] else ([], [])).2 := by
      cases ci
      · simpa using dedupInv_nil
      · simpa using overviewStep_inv oc [] [] dedupInv_nil
    have h2 := selectedLoop_inv CONTEXT_CHUNK_SEND_LIMIT
      (select_context_chunks (valid_chunks sc) CONTEXT_CHUNK_SEND_LIMIT) _ _ h1
    have h3 := dedupInv_mono h2 (validate_keyword_chunks_sub q kw kc _)
    exact (keywordLoop_inv CONTEXT_CHUNK_SEND_LIMIT _ _ _ h3).2
  · intro chunks limit
    exact selectGo_srcInv limit _ [] [] [] (by simp) List.Pairwise.nil

/-- Counterexample to C3 as stated: the dedup normalization is not the §4.1
social normalizer.  The chunks "Holaaa!!" and "Holaa" differ under the
normalization the code applies (`normalize_text` + lowercase), so one
retrieval returns both of them as context chunks, yet their §4.1-normalized
texts are equal ("hola"), contradicting "any two chunks in context_chunks
have different normalized texts" with normalization read as §4.1 requires. -/
theorem C3_cex :
    (retrieve_context [] [holaChunkA, holaChunkB] [] [] [] [] false).context_chunks =
      ["Holaaa!!".toList, "Holaa".toList]
    ∧ normalize_social_text ("Holaaa!!".toList) = normalize_social_text ("Holaa".toList) :=
  ⟨by decide, by decide⟩

/-- C4 (amended): for every message that reaches the retrieval path and whose
retrieval produces zero context chunks, the response returned is the fixed
"insufficient information" fallback text with the contact-channel suffix
appended (the orchestrator appends the suffix to every retrieval-path answer
before returning, chat.py line 649), and the generation service is never
invoked — the outcome is the same for every `gen` and its flag records that
no generation happened. -/
theorem C4_empty_context_fallback (message : List Char) (history : List Turn)
    (rag : RetrievalResult) (gen : List Char → Except Unit (List Char))
    (hne : pyStrip message ≠ [])
    (hcontact : looks_like_contact (pyStrip message) = false)
    (hsocial : detect_social_response_extended (pyStrip message) = none)
    (hempty : rag.context_chunks = []) :
    chat message history (Except.ok rag) gen =
      ChatOutcome.answered false (append_contact_prompt FALLBACK_RESPONSE) := by
  rw [chat]
  dsimp only
  rw [if_neg (by simp [hne]), if_neg (by simp [hcontact]), hsocial]
  dsimp only
  rw [if_pos (by simp [hempty])]

/-- Witness for `C4_empty_context_fallback` at a concrete retrieval-path
message and an empty retrieval result. -/
theorem C4_empty_context_fallback_witness :
    chat ("necesito informacion sobre estructuras".toList) [] (Except.ok ragEmpty)
        (fun _ => Except.ok ("unused".toList)) =
      ChatOutcome.answered false (append_contact_prompt FALLBACK_RESPONSE) :=
  C4_empty_context_fallback _ _ _ _ (by decide) (by decide) (by decide) (by decide)

/-- Counterexample to C4 as stated: on the empty-context path the value
returned as the response is `append_contact_prompt FALLBACK_RESPONSE`, which
is not the exact fallback text — the contact-channel suffix is appended. -/
theorem C4_cex :
    chat ("necesito detalle de precios".toList) [] (Except.ok ragEmpty)
        (fun _ => Except.ok ("unused".toList)) =
      ChatOutcome.answered false (append_contact_prompt FALLBACK_RESPONSE)
    ∧ append_contact_prompt FALLBACK_RESPONSE ≠ FALLBACK_RESPONSE :=
  ⟨by decide, by decide⟩

/-- C5: the social classifier returns the thanks reply for "Gracias!!" (exact
table lookup after normalization); the pattern-scan stage returns nothing for
every message containing a question mark, and for every normalized text
containing an informative marker; in particular
classify("gracias, cuánto cuesta el curso?") returns nothing, so that message
flows on to retrieval — its chat outcome is the mapping of the retrieval
outcome (here: the retrieval-error outcome when retrieval fails), for every
history and generation service. -/
theorem C5_social_classifier :
    detect_social_response_extended ("Gracias!!".toList) =
      some ("¡Con gusto! Si necesitas algo más, aquí estaré.".toList)
    ∧ (∀ message normalized, containsSub ("?".toList) message = true →
        matches_courtesy_pattern message normalized = none)
    ∧ (∀ message normalized marker, marker ∈ INFORMATIVE_MARKERS →
        containsSub marker normalized = true →
        matches_courtesy_pattern message normalized = none)
    ∧ detect_social_response_extended ("gracias, cuánto cuesta el curso?".toList) = none
    ∧ (∀ history gen,
        chat ("gracias, cuánto cuesta el curso?".toList) history (Except.error ()) gen =
          ChatOutcome.retrievalError) := by
  refine ⟨by decide, ?_, ?_, by decide, ?_⟩
  · intro message normalized h
    rw [matches_courtesy_pattern, if_pos (by rw [Bool.or_eq_true]; exact Or.inl h)]
  · intro message normalized marker hm hsub
    rw [matches_courtesy_pattern]
    by_cases hq : (containsSub ("?".toList) message || containsSub ("¿".toList) message) = true
    · rw [if_pos hq]
    · rw [if_neg hq, if_pos (List.any_eq_true.mpr ⟨marker, hm, hsub⟩)]
  · intro history gen
    rw [chat]
    dsimp only
    rw [if_neg (by decide), if_neg (by decide),
      show detect_social_response_extended (pyStrip ("gracias, cuánto cuesta el curso?".toList)) =
        none from by decide]

/-- Witness for `C5_social_classifier`: the hypothesised pattern-scan parts
applied at concrete inputs — a question-marked message and a normalized text
containing the informative marker "consulta". -/
theorem C5_social_classifier_witness :
    matches_courtesy_pattern ("gracias equipo?".toList) ("gracias equipo".toList) = none ∧
    matches_courtesy_pattern ("gracias por la consulta".toList) ("gracias por la consulta".toList) = none :=
  ⟨C5_social_classifier.2.1 _ _ (by decide),
   C5_social_classifier.2.2.1 _ _ ("consulta".toList) (by decide) (by decide)⟩

/-- C6 (amended): `looks_like_contact` is true iff, after replacing every
comma and semicolon with a space, some whitespace-delimited token contains
both "@" and ".", or the raw message contains at least six digit characters;
and every message it accepts (after the orchestrator's strip) takes the
contact-acknowledgement path before social or retrieval handling — for every
history, retrieval outcome and generation service, i.e. regardless of course
keywords — returning the fixed acknowledgement text with the contact-channel
suffix appended. -/
theorem C6_contact_detector :
    (∀ message, looks_like_contact message = true ↔
      ((∃ tok ∈ splitWs (message.map (fun c => if c == ',' || c == ';' then ' ' else c)),
          containsSub ("@".toList) tok = true ∧ containsSub (".".toList) tok = true) ∨
        6 ≤ (message.filter isAsciiDigit).length))
    ∧ (∀ message history rag gen,
        pyStrip message ≠ [] →
        looks_like_contact (pyStrip message) = true →
        chat message history rag gen = ChatOutcome.contactAck (append_contact_prompt CONTACT_ACK))
    ∧ append_contact_prompt CONTACT_ACK = CONTACT_ACK ++ [' '] ++ CONTACT_PROMPT := by
  refine ⟨?_, ?_, by decide⟩
  · intro message
    simp [looks_like_contact, List.any_eq_true, Bool.and_eq_true]
  · intro message history rag gen hne hcontact
    rw [chat]
    dsimp only
    rw [if_neg (by simp [hne]), if_pos hcontact]

/-- Witness for `C6_contact_detector`: its contact-path part applied to a
concrete message containing an e-mail-like token. -/
theorem C6_contact_detector_witness :
    chat ("quiero el curso de instalaciones, mi correo es x@y.com".toList) []
        (Except.error ()) (fun _ => Except.error ()) =
      ChatOutcome.contactAck (append_contact_prompt CONTACT_ACK) :=
  C6_contact_detector.2.1 _ _ _ _ (by decide) (by decide)

/-- Counterexample to C6 as stated: "a.b,c@d" is one whitespace-delimited
token containing both "@" and ".", so the claimed detector fires; but the
code replaces the comma with a space before splitting, which separates the
"." from the "@", and `_looks_like_contact` returns false (and the message
has no digits). -/
theorem C6_cex :
    claim_looks_like_contact ("a.b,c@d".toList) = true ∧
    looks_like_contact ("a.b,c@d".toList) = false :=
  ⟨by decide, by decide⟩

/-- C7: the rendered history (built from at most the last `MAX_HISTORY_LINES`
= 4 turns, by definition of `rendered_history`) never exceeds 800 characters
and is always a suffix — the tail — of the untruncated rendering; for the
ten-turn history `hist10`, whose untruncated rendering exceeds 800
characters, the output length is exactly 800.  Symmetrically, the evidence
context string never exceeds `MAX_CONTEXT_CHARS` and is always a prefix —
the head — of the joined chunks. -/
theorem C7_truncation :
    (∀ history : List Turn,
        (format_history history).1.length ≤ 800 ∧
        isTailOf (format_history history).1 (rendered_history history))
    ∧ 800 < (rendered_history hist10).length
    ∧ (format_history hist10).1.length = 800
    ∧ (∀ joined : List Char,
        (truncate joined MAX_CONTEXT_CHARS).length ≤ MAX_CONTEXT_CHARS ∧
        isHeadOf (truncate joined MAX_CONTEXT_CHARS) joined) := by
  refine ⟨?_, by decide, by decide, ?_⟩
  · intro history
    constructor
    · show (truncate_history (rendered_history history) 800).length ≤ 800
      rw [truncate_history]
      split
      · assumption
      · rw [List.length_drop]
        omega
    · show isTailOf (truncate_history (rendered_history history) 800) (rendered_history history)
      rw [truncate_history]
      split
      · exact ⟨[], rfl⟩
      · exact ⟨(rendered_history history).take _, (List.take_append_drop _ _).symm⟩
  · intro joined
    constructor
    · rw [truncate]
      split
      · assumption
      · rw [List.length_take]
        omega
    · rw [truncate]
      split
      · exact ⟨[], (List.append_nil _).symm⟩
      · exact ⟨joined.drop MAX_CONTEXT_CHARS, (List.take_append_drop _ _).symm⟩

/-- C8: on the social short-circuit path, for every message matched by the
classifier the canned reply is returned (and persisted — the source saves the
same value it returns) as-is when the normalized message is in the greeting
keyword set, and with the contact-channel suffix appended otherwise; the
outcome is the same for every retrieval outcome and generation service — no
retrieval call is consumed.  In particular "Hola" yields the canned greeting
reply, independent of the retrieval outcome, with no contact suffix in it. -/
theorem C8_social_short_circuit :
    (∀ message history rag gen short_response,
        pyStrip message ≠ [] →
        looks_like_contact (pyStrip message) = false →
        detect_social_response_extended (pyStrip message) = some short_response →
        chat message history rag gen = ChatOutcome.social
          (if normalize_social_text (pyStrip message) ∈ GREETING_KEYWORDS then short_response
           else append_contact_prompt short_response))
    ∧ (∀ history rag gen, chat ("Hola".toList) history rag gen =
        ChatOutcome.social ("Hola, ¿cómo estás?".toList))
    ∧ containsSub CONTACT_PROMPT ("Hola, ¿cómo estás?".toList) = false := by
  refine ⟨?_, ?_, by decide⟩
  · intro message history rag gen short_response hne hcontact hsocial
    rw [chat]
    dsimp only
    rw [if_neg (by simp [hne]), if_neg (by simp [hcontact]), hsocial]
  · intro history rag gen
    rw [chat]
    dsimp only
    rw [if_neg (by decide), if_neg (by decide),
      show detect_social_response_extended (pyStrip ("Hola".toList)) =
        some ("Hola, ¿cómo estás?".toList) from by decide]
    dsimp only
    rw [if_pos (by decide)]

/-- Witness for `C8_social_short_circuit`: its general part applied to the
non-greeting social message "gracias" (whose reply gets the suffix). -/
theorem C8_social_short_circuit_witness :
    chat ("gracias".toList) [] (Except.error ()) (fun _ => Except.error ()) =
      ChatOutcome.social
        (if normalize_social_text (pyStrip ("gracias".toList)) ∈ GREETING_KEYWORDS
         then "¡Con gusto! Si necesitas algo más, aquí estaré.".toList
         else append_contact_prompt ("¡Con gusto! Si necesitas algo más, aquí estaré.".toList)) :=
  C8_social_short_circuit.1 _ _ _ _ _ (by decide) (by decide) (by decide)

/-- C9: for every embedding vector whose length differs from the configured
expected dimension (`settings.embedding_dimension`, default 768) the
normalization helper fails with its `ValueError`; in general it fails iff the
vector is not of the expected size or its norm is zero (the only way the
norm of an exact 1-D vector can be zero or non-finite); and it never silently
pads or truncates — a successful result carries a vector of exactly the input
length, which then equals the expected dimension. -/
theorem C9_embedding_dimension_guard :
    (∀ embedding : List ℚ, embedding.length ≠ embedding_dimension →
        ∃ msg, normalize_embedding embedding embedding_dimension = Except.error msg)
    ∧ (∀ (embedding : List ℚ) (expected_dim : ℕ),
        (∃ msg, normalize_embedding embedding expected_dim = Except.error msg) ↔
          (embedding.length ≠ expected_dim ∨ sumSq embedding = 0))
    ∧ (∀ (embedding : List ℚ) (expected_dim : ℕ) (v : List ℚ) (n : ℚ),
        normalize_embedding embedding expected_dim = Except.ok (v, n) →
          v.length = embedding.length ∧ embedding.length = expected_dim) := by
  have key : ∀ (e : List ℚ) (d : ℕ),
      (∃ msg, normalize_embedding e d = Except.error msg) ↔ (e.length ≠ d ∨ sumSq e = 0) := by
    intro e d
    rw [normalize_embedding]
    by_cases h1 : e.length ≠ d
    · rw [if_pos h1]
      simp [h1]
    · rw [if_neg h1]
      by_cases h2 : sumSq e = 0
      · rw [if_pos h2]
        simp [h1, h2]
      · rw [if_neg h2]
        simp [h1, h2]
  refine ⟨?_, key, ?_⟩
  · intro e h
    exact (key e embedding_dimension).mpr (Or.inl h)
  · intro e d v n h
    rw [normalize_embedding] at h
    by_cases h1 : e.length ≠ d
    · rw [if_pos h1] at h
      cases h
    · rw [if_neg h1] at h
      by_cases h2 : sumSq e = 0
      · rw [if_pos h2] at h
        cases h
      · rw [if_neg h2] at h
        injection h with h3
        injection h3 with h4 h5
        subst h4
        push_neg at h1
        exact ⟨rfl, h1⟩

/-- Witness for `C9_embedding_dimension_guard`: a one-entry vector fails
against the configured dimension, and the guard equivalence evaluated at a
concrete wrong-size vector. -/
theorem C9_embedding_dimension_guard_witness :
    (∃ msg, normalize_embedding [(1 : ℚ)] embedding_dimension = Except.error msg) ∧
    ((∃ msg, normalize_embedding [(1 : ℚ)] 2 = Except.error msg) ↔
      (([(1 : ℚ)].length ≠ 2) ∨ sumSq [(1 : ℚ)] = 0)) ∧
    ([(3 : ℚ), 4].length = 2 ∧ ([(3 : ℚ), 4]).length = 2) :=
  ⟨C9_embedding_dimension_guard.1 [(1 : ℚ)] (by decide),
   C9_embedding_dimension_guard.2.1 [(1 : ℚ)] 2,
   C9_embedding_dimension_guard.2.2 [(3 : ℚ), 4] 2 [(3 : ℚ), 4] (sumSq [(3 : ℚ), 4])
     (by rw [normalize_embedding, if_neg (by decide), if_neg (by norm_num [sumSq])])⟩

lemma containsSub_single (a : Char) (l : List Char) :
    containsSub [a] l = true ↔ a ∈ l := by
  induction l with
  | nil => simp [containsSub, leadsList]
  | cons c rest ih =>
    rw [containsSub]
    constructor
    · intro h
      rcases Bool.or_eq_true _ _ ▸ h with h | h
      · rw [leadsList] at h
        rcases Bool.and_eq_true _ _ |>.mp h with ⟨h1, _⟩
        exact List.mem_cons.mpr (Or.inl (eq_of_beq h1))
      · exact List.mem_cons.mpr (Or.inr (ih.mp h))
    · intro h
      rcases List.mem_cons.mp h with h | h
      · subst h
        apply Bool.or_eq_true _ _ |>.mpr
        left
        rw [leadsList, leadsList]
        simp
      · exact Bool.or_eq_true _ _ |>.mpr (Or.inr (ih.mpr h))

lemma dropWhile_eq_self_of (p : Char → Bool) (l : List Char)
    (h : ∀ c ∈ l, p c = false) : l.dropWhile p = l := by
  cases l with
  | nil => rfl
  | cons a rest =>
    rw [List.dropWhile_cons, h a (List.mem_cons_self a rest)]
    simp

lemma dropWhile_eq_nil_of (p : Char → Bool) (l : List Char)
    (h : ∀ c ∈ l, p c = true) : l.dropWhile p = [] := by
  induction l with
  | nil => rfl
  | cons a rest ih =>
    rw [List.dropWhile_cons, h a (List.mem_cons_self a rest)]
    exact if_pos rfl ▸ ih (fun c hc => h c (List.mem_cons_of_mem a hc))

lemma pyStrip_eq_self_of (l : List Char) (h : ∀ c ∈ l, isPyWs c = false) : pyStrip l = l := by
  rw [pyStrip, dropWhile_eq_self_of _ _ h, dropWhileEnd,
    dropWhile_eq_self_of _ _ (fun c hc => h c (List.mem_reverse.mp hc)), List.reverse_reverse]

lemma pyStrip_eq_nil_of (l : List Char) (h : ∀ c ∈ l, isPyWs c = true) : pyStrip l = [] := by
  rw [pyStrip, dropWhile_eq_nil_of _ _ h]
  rfl

lemma collapseWsAux_allWs (l : List Char) :
    ∀ (b : Bool), (∀ c ∈ l, isPyWs c = true) → ∀ c ∈ collapseWsAux b l, isPyWs c = true := by
  induction l with
  | nil => intro b _ c hc; cases hc
  | cons a rest ih =>
    intro b h c hc
    have hrest := fun x hx => h x (List.mem_cons_of_mem a hx)
    rw [collapseWsAux] at hc
    split at hc
    · split at hc
      · exact ih true hrest c hc
      · rcases List.mem_cons.mp hc with hc | hc
        · subst hc; decide
        · exact ih true hrest c hc
    · next hnws => exact absurd (h a (List.mem_cons_self a rest)) hnws

lemma collapseRunsAux_mem (l : List Char) :
    ∀ (prev : Option Char) (c : Char), c ∈ collapseRunsAux prev l → c ∈ l := by
  induction l with
  | nil => intro prev c hc; cases hc
  | cons a rest ih =>
    intro prev c hc
    rw [collapseRunsAux] at hc
    split at hc
    · exact List.mem_cons_of_mem a (ih _ c hc)
    · rcases List.mem_cons.mp hc with hc | hc
      · exact hc ▸ List.mem_cons_self a rest
      · exact List.mem_cons_of_mem a (ih _ c hc)

lemma normalize_text_nil_of_ctrl (l : List Char)
    (h : ∀ c ∈ l, isCtrlRange c = true) : normalize_text l = [] := by
  rw [normalize_text]
  apply pyStrip_eq_nil_of
  apply collapseWsAux_allWs
  intro c hc
  rcases List.mem_map.mp hc with ⟨a, ha, rfl⟩
  rw [h a ha]
  show isPyWs (if true = true then ' ' else a) = true
  rw [if_pos rfl]
  decide

lemma stripMark_eq_self_of (c : Char)
    (h : c.toNat ≤ 0x1f ∨ (0x7f ≤ c.toNat ∧ c.toNat ≤ 0x9f)) : stripMark c = c := by
  rw [stripMark,
    if_neg (by simp only [beq_iff_eq]; omega), if_neg (by simp only [beq_iff_eq]; omega),
    if_neg (by simp only [beq_iff_eq]; omega), if_neg (by simp only [beq_iff_eq]; omega),
    if_neg (by simp only [beq_iff_eq]; omega), if_neg (by simp only [beq_iff_eq]; omega),
    if_neg (by simp only [beq_iff_eq]; omega), if_neg (by simp only [beq_iff_eq]; omega),
    if_neg (by simp only [beq_iff_eq]; omega), if_neg (by simp only [beq_iff_eq]; omega),
    if_neg (by simp only [beq_iff_eq]; omega), if_neg (by simp only [beq_iff_eq]; omega),
    if_neg (by simp only [beq_iff_eq]; omega), if_neg (by simp only [beq_iff_eq]; omega)]

lemma asciiLower_eq_self_of (c : Char) (h : c.toNat < 0x41 ∨ 0x5a < c.toNat) :
    asciiLower c = c := by
  rw [asciiLower, if_neg]
  simp only [Bool.and_eq_true, decide_eq_true_eq, not_and]
  omega

lemma normalize_social_text_nil_of (l : List Char)
    (h : ∀ c ∈ l, isCtrlRange c = true ∧ isPyWs c = false) :
    normalize_social_text l = [] := by
  rw [normalize_social_text]
  apply pyStrip_eq_nil_of
  apply collapseWsAux_allWs
  intro c hc
  have hc2 := collapseRunsAux_mem _ _ _ hc
  rcases List.mem_map.mp hc2 with ⟨b, hb, rfl⟩
  rcases List.mem_map.mp hb with ⟨a2, ha2, rfl⟩
  rcases List.mem_map.mp ha2 with ⟨a, ha, rfl⟩
  obtain ⟨hctrl, hws⟩ := h a ha
  have hbound : a.toNat ≤ 0x1f ∨ (0x7f ≤ a.toNat ∧ a.toNat ≤ 0x9f) := by
    simpa only [isCtrlRange, Bool.or_eq_true, Bool.and_eq_true, decide_eq_true_eq] using hctrl
  rw [stripMark_eq_self_of a hbound, asciiLower_eq_self_of a (by omega)]
  rw [if_neg]
  · decide
  · simp only [Bool.or_eq_true, not_or]
    constructor
    · simp only [isPyWordChar, Bool.or_eq_true, Bool.and_eq_true, decide_eq_true_eq,
        beq_iff_eq, not_or]
      omega
    · simp [hws]

lemma splitWsAux_chars (l : List Char) :
    ∀ (acc tok : List Char) (c : Char), tok ∈ splitWsAux acc l → c ∈ tok → c ∈ acc ∨ c ∈ l := by
  induction l with
  | nil =>
    intro acc tok c htok hc
    rw [splitWsAux] at htok
    split at htok
    · cases htok
    · rw [List.mem_singleton] at htok
      subst htok
      exact Or.inl (List.mem_reverse.mp hc)
  | cons a rest ih =>
    intro acc tok c htok hc
    rw [splitWsAux] at htok
    split at htok
    · split at htok
      · rcases ih [] tok c htok hc with h | h
        · cases h
        · exact Or.inr (List.mem_cons_of_mem _ h)
      · rcases List.mem_cons.mp htok with h | h
        · subst h
          exact Or.inl (List.mem_reverse.mp hc)
        · rcases ih [] tok c h hc with h2 | h2
          · cases h2
          · exact Or.inr (List.mem_cons_of_mem _ h2)
    · rcases ih (a :: acc) tok c htok hc with h | h
      · rcases List.mem_cons.mp h with h2 | h2
        · subst h2
          exact Or.inr (List.mem_cons_self _ _)
        · exact Or.inl h2
      · exact Or.inr (List.mem_cons_of_mem _ h)

lemma looks_like_contact_false_of_ctrl (msg : List Char)
    (h : ∀ c ∈ msg, isCtrlRange c = true ∧ isPyWs c = false) :
    looks_like_contact msg = false := by
  have hbounds : ∀ c ∈ msg, c.toNat ≤ 0x1f ∨ (0x7f ≤ c.toNat ∧ c.toNat ≤ 0x9f) := by
    intro c hc
    simpa only [isCtrlRange, Bool.or_eq_true, Bool.and_eq_true, decide_eq_true_eq]
      using (h c hc).1
  rw [looks_like_contact]
  have hmap : msg.map (fun c => if c == ',' || c == ';' then ' ' else c) = msg := by
    conv_rhs => rw [show msg = msg.map id from (List.map_id msg).symm]
    apply List.map_congr_left
    intro a ha
    rw [if_neg]
    · rfl
    · simp only [Bool.or_eq_true, beq_iff_eq, not_or]
      have hb := hbounds a ha
      constructor
      · intro heq
        rw [heq] at hb
        revert hb
        decide
      · intro heq
        rw [heq] at hb
        revert hb
        decide
  rw [hmap, Bool.or_eq_false_iff]
  constructor
  · rw [List.any_eq_false]
    intro tok htok
    rcases Bool.eq_false_or_eq_true
        (containsSub ("@".toList) tok && containsSub (".".toList) tok) with hb | hb
    swap
    · intro hcontra
      rw [hb] at hcontra
      cases hcontra
    · exfalso
      rcases Bool.and_eq_true _ _ |>.mp hb with ⟨hat, _⟩
      have hmem : '@' ∈ tok := (containsSub_single '@' tok).mp hat
      rcases splitWsAux_chars msg [] tok '@' htok hmem with h2 | h2
      · cases h2
      · have := hbounds '@' h2
        revert this
        decide
  · have hf : msg.filter isAsciiDigit = [] := by
      rw [List.filter_eq_nil_iff]
      intro a ha
      have hb := hbounds a ha
      simp only [isAsciiDigit, Bool.and_eq_true, decide_eq_true_eq, not_and]
      omega
    rw [hf]
    decide

lemma detect_social_none_of_ctrl (msg : List Char)
    (h : ∀ c ∈ msg, isCtrlRange c = true ∧ isPyWs c = false) :
    detect_social_response_extended msg = none := by
  have hbounds : ∀ c ∈ msg, c.toNat ≤ 0x1f ∨ (0x7f ≤ c.toNat ∧ c.toNat ≤ 0x9f) := by
    intro c hc
    simpa only [isCtrlRange, Bool.or_eq_true, Bool.and_eq_true, decide_eq_true_eq]
      using (h c hc).1
  have hq1 : containsSub ("?".toList) msg = false := by
    rcases Bool.eq_false_or_eq_true (containsSub ("?".toList) msg) with hb | hb
    · exfalso
      have := hbounds '?' ((containsSub_single '?' msg).mp hb)
      revert this
      decide
    · exact hb
  have hq2 : containsSub ("¿".toList) msg = false := by
    rcases Bool.eq_false_or_eq_true (containsSub ("¿".toList) msg) with hb | hb
    · exfalso
      have := hbounds '¿' ((containsSub_single '¿' msg).mp hb)
      revert this
      decide
    · exact hb
  rw [detect_social_response_extended]
  rw [normalize_social_text_nil_of msg h,
    show lookupTable HUMAN_SOCIAL_RESPONSES [] = none from by decide]
  rw [matches_courtesy_pattern, if_neg (by rw [hq1, hq2]; decide), if_neg (by decide)]
  decide

/-- C10 (implicit): for every non-empty message consisting only of characters
that survive Python `str.strip()` but are mapped to whitespace by
`normalize_text` (the control characters of `CONTROL_CHAR_RE` that are not
Python whitespace, such as "\x01"), the orchestrator's emptiness check passes
(the stripped message is the message itself, non-empty), yet `embed_query`
raises its `ValueError` before consulting the embedding service — the result
is the same error for every `service` —, so such a turn surfaces the
retrieval-stage service error, not the empty-input 400 rejection: with the
retrieval attempt failing, the chat outcome is the retrieval error. -/
theorem C10_control_character_message (message : List Char)
    (hne : message ≠ [])
    (hchars : ∀ c ∈ message, isCtrlRange c = true ∧ isPyWs c = false) :
    pyStrip message = message
    ∧ normalize_text message = []
    ∧ (∀ service, embed_query service message =
        Except.error ("Input text must contain readable characters.".toList))
    ∧ (∀ history gen, chat message history (Except.error ()) gen =
        ChatOutcome.retrievalError) := by
  have hstrip : pyStrip message = message :=
    pyStrip_eq_self_of _ (fun c hc => (hchars c hc).2)
  have hnt : normalize_text message = [] :=
    normalize_text_nil_of_ctrl _ (fun c hc => (hchars c hc).1)
  refine ⟨hstrip, hnt, ?_, ?_⟩
  · intro service
    rw [embed_query]
    rw [hnt]
    rfl
  · intro history gen
    rw [chat]
    rw [hstrip, if_neg (by simp [hne]),
      if_neg (by rw [looks_like_contact_false_of_ctrl message hchars]; simp),
      detect_social_none_of_ctrl message hchars]

/-- Witness for `C10_control_character_message` at the one-character control
message "\x01". -/
theorem C10_control_character_message_witness :
    pyStrip ("\x01".toList) = "\x01".toList
    ∧ embed_query (fun _ => []) ("\x01".toList) =
        Except.error ("Input text must contain readable characters.".toList)
    ∧ chat ("\x01".toList) [] (Except.error ()) (fun _ => Except.error ()) =
        ChatOutcome.retrievalError := by
  have T := C10_control_character_message ("\x01".toList) (by decide) (by decide)
  exact ⟨T.1, T.2.2.1 _, T.2.2.2 _ _⟩
